import Mathlib

/-!
Shallow embedding of the request/response channel client of
`examples/demo_host.py` (class `MCPClient`): a synchronous JSON-RPC-style
line client over the stdin/stdout pipes of a child process, together with
proofs of the specified properties.

Modelling conventions:
* JSON values are the inductive `Json`; Python dictionaries keep insertion
  order, so objects are association lists.
* The child process is modelled by `Process`: its status (running until the
  client terminates it), the list of lines written to its stdin, and the
  list of JSON objects remaining on its stdout.  The collaborator contract
  says every stdout line is a single JSON object, so the pending stdout is
  kept at message granularity; an exhausted list models a closed stream,
  where `readline` returns empty bytes and `json.loads` of the empty string
  raises `JSONDecodeError`.
* Python exceptions are the inductive `PyError`; fallible operations return
  `Except PyError α` together with the client state at the raise point
  (Python mutates `self` before raising, and the demo keeps using the same
  client after catching an exception).
-/

set_option autoImplicit false

namespace DemoHost

/-- JSON values as decoded by `json.loads` and fed to `json.dumps`.
Objects are association lists in insertion order, as Python dicts are. -/
inductive Json where
  | null : Json
  | bool : Bool → Json
  | num : Int → Json
  | str : String → Json
  | arr : List Json → Json
  | obj : List (String × Json) → Json
deriving Repr

/-- First binding of a key in an association list, the value a Python dict
lookup returns (`json.loads` never produces duplicate keys). -/
def lookupField : List (String × Json) → String → Option Json
  | [], _ => none
  | (k, v) :: rest, key => if k = key then some v else lookupField rest key

/-- Python exceptions raised by the code paths of `MCPClient`. -/
inductive PyError where
  /-- `raise RuntimeError("Server not started")` in `send_request`. -/
  | runtimeError : String → PyError
  /-- `json.JSONDecodeError` from `json.loads` on a missing/empty line
  (the spec's `ProtocolDecodeError`). -/
  | jsonDecodeError : PyError
  /-- `Exception(f"Tool error: ...")` carrying the error payload
  (the spec's `ToolError`). -/
  | toolError : Json → PyError
  /-- `ConnectionResetError` from `await stdin.drain()` on the closed pipe
  of a terminated child. -/
  | connectionResetError : PyError
  /-- `AttributeError` from calling `.get` on a non-dict value. -/
  | attributeError : PyError
  /-- `TypeError` from an unsupported operation on a value. -/
  | typeError : PyError
  /-- `KeyError` from `d[k]` with `k` absent. -/
  | keyError : PyError
  /-- `IndexError` from `xs[i]` out of range. -/
  | indexError : PyError
deriving Repr

/-- Python `key in j` for the values reachable here: key membership for a
dict, element membership for a list (via the string value), `TypeError`
otherwise (membership in a string is substring search, not needed here and
also modelled as an error). -/
def pyIn (key : String) (j : Json) : Except PyError Bool :=
  match j with
  | Json.obj fields => Except.ok (lookupField fields key).isSome
  | _ => Except.error PyError.typeError

/-- Python `j.get(key, default)`: defaulted dict lookup, `AttributeError`
when `j` is not a dict. -/
def pyGet (j : Json) (key : String) (default : Json) : Except PyError Json :=
  match j with
  | Json.obj fields =>
      Except.ok (match lookupField fields key with
        | some v => v
        | none => default)
  | _ => Except.error PyError.attributeError

/-- Python `j.get(key)` with the implicit `None` default. -/
def pyGetNone (j : Json) (key : String) : Except PyError Json :=
  match j with
  | Json.obj fields =>
      Except.ok (match lookupField fields key with
        | some v => v
        | none => Json.null)
  | _ => Except.error PyError.attributeError

/-- Python `j[key]` on a dict: `KeyError` when absent, `TypeError` when `j`
is not a dict. -/
def pyGetItem (j : Json) (key : String) : Except PyError Json :=
  match j with
  | Json.obj fields =>
      match lookupField fields key with
      | some v => Except.ok v
      | none => Except.error PyError.keyError
  | _ => Except.error PyError.typeError

/-- Python `j[i]` on a list: `IndexError` when out of range, `TypeError`
when `j` is not a list. -/
def pyIndex (j : Json) (i : Nat) : Except PyError Json :=
  match j with
  | Json.arr xs =>
      match xs.get? i with
      | some v => Except.ok v
      | none => Except.error PyError.indexError
  | _ => Except.error PyError.typeError

/-! Model of `json.dumps` with its default separators (`", "` between items,
`": "` between a key and a value), restricted to the value forms of `Json`.
Serialization is built over `List Char`; strings escape the quote, the
backslash and every control character, exactly enough to establish that a
dumped object is a single line (contains no raw newline). -/

/-- Hexadecimal digit character for `n < 16` (lower case, as Python). -/
def hexDigit (n : Nat) : Char :=
  if n < 10 then Char.ofNat (48 + n) else Char.ofNat (87 + n)

/-- Escape of one character inside a JSON string literal: the named escapes
of `json.dumps`, `\u00XX` for the remaining control characters, the
character itself otherwise. -/
def escapeChar (ch : Char) : List Char :=
  if ch = '"' then ['\\', '"']
  else if ch = '\\' then ['\\', '\\']
  else if ch = '\n' then ['\\', 'n']
  else if ch = '\t' then ['\\', 't']
  else if ch = '\r' then ['\\', 'r']
  else if ch = '\x08' then ['\\', 'b']
  else if ch = '\x0c' then ['\\', 'f']
  else if ch.toNat < 32 then
    ['\\', 'u', '0', '0', hexDigit (ch.toNat / 16), hexDigit (ch.toNat % 16)]
  else [ch]

/-- JSON string literal: opening quote, escaped characters, closing quote. -/
def quoteChars (s : String) : List Char :=
  '"' :: (s.data.map escapeChar).flatten ++ ['"']

/-- Decimal digits of a natural number, most significant first; the `fuel`
argument bounds the recursion (any `fuel > n` is enough). -/
def natDigits (fuel n : Nat) : List Char :=
  match fuel with
  | 0 => []
  | fuel + 1 =>
      if n < 10 then [Char.ofNat (48 + n)]
      else natDigits fuel (n / 10) ++ [Char.ofNat (48 + n % 10)]

/-- Decimal rendering of an integer, as Python `repr` for `int`. -/
def intChars (i : Int) : List Char :=
  if i < 0 then '-' :: natDigits (i.natAbs + 1) i.natAbs
  else natDigits (i.natAbs + 1) i.natAbs

mutual

/-- Characters of the `json.dumps` rendering of a value. -/
def dumpsChars : Json → List Char
  | Json.null => ['n', 'u', 'l', 'l']
  | Json.bool true => ['t', 'r', 'u', 'e']
  | Json.bool false => ['f', 'a', 'l', 's', 'e']
  | Json.num n => intChars n
  | Json.str s => quoteChars s
  | Json.arr xs => '[' :: dumpsList xs ++ [']']
  | Json.obj fs => '\x7b' :: dumpsFields fs ++ ['\x7d']

/-- Array elements joined by the default item separator `", "`. -/
def dumpsList : List Json → List Char
  | [] => []
  | [x] => dumpsChars x
  | x :: y :: rest => dumpsChars x ++ [',', ' '] ++ dumpsList (y :: rest)

/-- Object members `"key": value` joined by the default item separator. -/
def dumpsFields : List (String × Json) → List Char
  | [] => []
  | [(k, v)] => quoteChars k ++ [':', ' '] ++ dumpsChars v
  | (k, v) :: f :: rest =>
      quoteChars k ++ [':', ' '] ++ dumpsChars v ++ [',', ' '] ++ dumpsFields (f :: rest)

end

/-- Model of `json.dumps`: the rendered text of a JSON value. -/
def dumps (j : Json) : String :=
  String.mk (dumpsChars j)

/-- Whether the child process is still running or has been terminated. -/
inductive ProcStatus where
  | running : ProcStatus
  | exited : ProcStatus
deriving Repr, DecidableEq

/-- The child process spawned by `start_server`, with its two pipes:
`stdin` records the lines written to it, `stdoutLines` is the decoded JSON
object of each line remaining to be read (empty once the stream closes). -/
structure Process where
  status : ProcStatus
  stdin : List String
  stdoutLines : List Json
deriving Repr

/-- State of an `MCPClient` instance: the optional child process handle and
the running request id counter, as in `__init__` (`self.process = None`,
`self.request_id = 0`).  `sentEnvelopes` is a history variable recording
each request object passed to `json.dumps`, used to state the id-sequence
invariant; it does not influence any behaviour. -/
structure MCPClient where
  process : Option Process
  request_id : Nat
  sentEnvelopes : List Json
deriving Repr

/-- The request dict built by `send_request`, with its keys in insertion
order: `jsonrpc` (the literal `"2.0"`), `id`, `method`, `params`. -/
def requestEnvelope (rid : Nat) (method : String) (params : Json) : Json :=
  Json.obj
    [("jsonrpc", Json.str "2.0"), ("id", Json.num rid),
     ("method", Json.str method), ("params", params)]

/-- The params dict built by `call_tool` for its `tools/call` request. -/
def toolCallParams (tool_name : String) (arguments : Json) : Json :=
  Json.obj [("name", Json.str tool_name), ("arguments", arguments)]

/-- The id stored in a request envelope (`0` for shapes `send_request`
never produces). -/
def envId (e : Json) : Int :=
  match e with
  | Json.obj fields =>
      match lookupField fields "id" with
      | some (Json.num n) => n
      | _ => 0
  | _ => 0

namespace MCPClient

/-- Model of `MCPClient()` construction. -/
def new : MCPClient :=
  { process := none, request_id := 0, sentEnvelopes := [] }

/-- Model of `start_server` when the spawn succeeds: the child starts
running with fresh pipes; `serverOutput` is the sequence of JSON lines the
collaborator will emit on its stdout over its lifetime. -/
def start_server (c : MCPClient) (serverOutput : List Json) : MCPClient :=
  { c with
    process := some { status := ProcStatus.running, stdin := [], stdoutLines := serverOutput } }

/-- Model of `send_request`, line by line from the source:
`if not self.process: raise RuntimeError("Server not started")` (the state
is untouched, nothing is written); `self.request_id += 1`; the request
dict with keys `jsonrpc`, `id`, `method`, `params` in insertion order;
`json.dumps(request) + "\n"` written to the child's stdin followed by
`await drain()` — on the closed pipe of a terminated child the drain
raises `ConnectionResetError`; `await stdout.readline()` — an exhausted
stream yields empty bytes and `json.loads` then raises `JSONDecodeError`,
otherwise the decoded object is returned unconditionally (no comparison of
its `id` against the one just sent).  The returned client is the state at
the return or raise point. -/
def send_request (c : MCPClient) (method : String) (params : Json) :
    Except PyError Json × MCPClient :=
  match c.process with
  | none => (Except.error (PyError.runtimeError "Server not started"), c)
  | some p =>
      let rid := c.request_id + 1
      let request : Json := requestEnvelope rid method params
      let request_json : String := dumps request ++ "\n"
      let p := { p with stdin := p.stdin ++ [request_json] }
      let c := { c with
                 process := some p
                 request_id := rid
                 sentEnvelopes := c.sentEnvelopes ++ [request] }
      match p.status with
      | ProcStatus.exited => (Except.error PyError.connectionResetError, c)
      | ProcStatus.running =>
          match p.stdoutLines with
          | [] => (Except.error PyError.jsonDecodeError, c)
          | response :: rest =>
              (Except.ok response,
               { c with process := some { p with stdoutLines := rest } })

/-- Model of `call_tool`: a `send_request("tools/call", ...)` with the tool
name and arguments, then `if "error" in response: raise Exception(...)`
with the payload `response["error"]`, then the chained extraction
`response.get("result", {}).get("content", [{}])[0].get("text")`. -/
def call_tool (c : MCPClient) (tool_name : String) (arguments : Json) :
    Except PyError Json × MCPClient :=
  match send_request c "tools/call" (toolCallParams tool_name arguments) with
  | (Except.error e, c) => (Except.error e, c)
  | (Except.ok response, c) =>
      let extracted : Except PyError Json := do
        if (← pyIn "error" response) then
          let payload ← pyGetItem response "error"
          throw (PyError.toolError payload)
        let r ← pyGet response "result" (Json.obj [])
        let content ← pyGet r "content" (Json.arr [Json.obj []])
        let first ← pyIndex content 0
        pyGetNone first "text"
      (extracted, c)

/-- Model of `process.terminate()`: sends SIGTERM to a running child; on a
child that has already completed, `Popen.terminate` does nothing. -/
def Process.terminate (p : Process) : Process :=
  { p with status := ProcStatus.exited }

/-- Model of `await process.wait()`: blocks until the child has exited and
returns; after `terminate` the child is already exiting, so the state is
unchanged. -/
def Process.wait (p : Process) : Process := p

/-- Model of `stop_server`: `if self.process:` guards the whole body, so a
never-started client is left untouched; otherwise `terminate()` then
`wait()`.  No path raises. -/
def stop_server (c : MCPClient) : MCPClient :=
  match c.process with
  | none => c
  | some p => { c with process := some (Process.wait (Process.terminate p)) }

/-- A sequence of `send_request` calls threaded through the client state,
each exception caught by the caller (as the demo's orchestration does), so
the sequence continues after a failed call. -/
def runCalls (c : MCPClient) : List (String × Json) → List (Except PyError Json) × MCPClient
  | [] => ([], c)
  | (method, params) :: rest =>
      let step := send_request c method params
      let further := runCalls step.2 rest
      (step.1 :: further.1, further.2)

end MCPClient

/-- The ids of the envelopes a client has passed to `json.dumps`, oldest
first. -/
def idsOf (c : MCPClient) : List Int :=
  c.sentEnvelopes.map envId

/-! Serializer lemmas: a dumped JSON value contains no raw newline, so the
written request is a single line. -/

theorem hexDigit_ne_newline : ∀ n, n < 16 → hexDigit n ≠ '\n' := by decide

theorem digitChar_ne_newline : ∀ n, n < 10 → Char.ofNat (48 + n) ≠ '\n' := by decide

theorem newline_not_mem_escapeChar (ch : Char) : '\n' ∉ escapeChar ch := by
  unfold escapeChar
  split_ifs with h1 h2 h3 h4 h5 h6 h7 h8
  · decide
  · decide
  · decide
  · decide
  · decide
  · decide
  · decide
  · intro hm
    simp only [List.mem_cons, List.mem_singleton, List.not_mem_nil, or_false] at hm
    rcases hm with h | h | h | h | h | h
    · exact absurd h (by decide)
    · exact absurd h (by decide)
    · exact absurd h (by decide)
    · exact absurd h (by decide)
    · exact hexDigit_ne_newline _ (by omega) h.symm
    · exact hexDigit_ne_newline _ (Nat.mod_lt _ (by omega)) h.symm
  · intro hm
    simp only [List.mem_singleton] at hm
    exact h3 hm.symm

theorem newline_not_mem_quoteChars (s : String) : '\n' ∉ quoteChars s := by
  intro hm
  simp only [quoteChars, List.mem_cons, List.mem_append, List.mem_singleton] at hm
  rcases hm with (h | h) | h
  · exact absurd h (by decide)
  · rcases List.mem_flatten.mp h with ⟨l, hl, hc⟩
    rcases List.mem_map.mp hl with ⟨ch, _, rfl⟩
    exact newline_not_mem_escapeChar ch hc
  · exact absurd h (by decide)

theorem newline_not_mem_natDigits (fuel : Nat) : ∀ n, '\n' ∉ natDigits fuel n := by
  induction fuel with
  | zero => intro n hm; cases hm
  | succ fuel ih =>
      intro n hm
      unfold natDigits at hm
      split_ifs at hm with h
      · simp only [List.mem_singleton] at hm
        exact digitChar_ne_newline n h hm.symm
      · simp only [List.mem_append, List.mem_singleton] at hm
        rcases hm with hm | hm
        · exact ih _ hm
        · exact digitChar_ne_newline _ (Nat.mod_lt _ (by omega)) hm.symm

theorem newline_not_mem_intChars (i : Int) : '\n' ∉ intChars i := by
  unfold intChars
  split_ifs with h
  · intro hm
    simp only [List.mem_cons] at hm
    rcases hm with hm | hm
    · exact absurd hm (by decide)
    · exact newline_not_mem_natDigits _ _ hm
  · exact newline_not_mem_natDigits _ _

mutual

theorem newline_not_mem_dumpsChars : ∀ j, '\n' ∉ dumpsChars j
  | Json.null => by intro hm; simp [dumpsChars] at hm
  | Json.bool true => by intro hm; simp [dumpsChars] at hm
  | Json.bool false => by intro hm; simp [dumpsChars] at hm
  | Json.num n => by
      intro hm; rw [dumpsChars] at hm; exact newline_not_mem_intChars n hm
  | Json.str s => by
      intro hm; rw [dumpsChars] at hm; exact newline_not_mem_quoteChars s hm
  | Json.arr xs => by
      intro hm
      rw [dumpsChars] at hm
      simp only [List.mem_cons, List.mem_append, List.mem_singleton] at hm
      rcases hm with (h | h) | h
      · exact absurd h (by decide)
      · exact newline_not_mem_dumpsList xs h
      · exact absurd h (by decide)
  | Json.obj fs => by
      intro hm
      rw [dumpsChars] at hm
      simp only [List.mem_cons, List.mem_append, List.mem_singleton] at hm
      rcases hm with (h | h) | h
      · exact absurd h (by decide)
      · exact newline_not_mem_dumpsFields fs h
      · exact absurd h (by decide)

theorem newline_not_mem_dumpsList : ∀ xs, '\n' ∉ dumpsList xs
  | [] => by intro hm; cases hm
  | [x] => by
      intro hm; rw [dumpsList] at hm; exact newline_not_mem_dumpsChars x hm
  | x :: y :: rest => by
      intro hm
      rw [dumpsList] at hm
      simp only [List.mem_append, List.mem_cons, List.mem_singleton,
        List.not_mem_nil, or_false] at hm
      rcases hm with (h | h | h) | h
      · exact newline_not_mem_dumpsChars x h
      · exact absurd h (by decide)
      · exact absurd h (by decide)
      · exact newline_not_mem_dumpsList (y :: rest) h

theorem newline_not_mem_dumpsFields : ∀ fs, '\n' ∉ dumpsFields fs
  | [] => by intro hm; cases hm
  | [(k, v)] => by
      intro hm
      rw [dumpsFields] at hm
      simp only [List.mem_append, List.mem_cons, List.mem_singleton,
        List.not_mem_nil, or_false] at hm
      rcases hm with (h | h | h) | h
      · exact newline_not_mem_quoteChars k h
      · exact absurd h (by decide)
      · exact absurd h (by decide)
      · exact newline_not_mem_dumpsChars v h
  | (k, v) :: f :: rest => by
      intro hm
      rw [dumpsFields] at hm
      simp only [List.mem_append, List.mem_cons, List.mem_singleton,
        List.not_mem_nil, or_false] at hm
      rcases hm with (((h | h | h) | h) | h | h) | h
      · exact newline_not_mem_quoteChars k h
      · exact absurd h (by decide)
      · exact absurd h (by decide)
      · exact newline_not_mem_dumpsChars v h
      · exact absurd h (by decide)
      · exact absurd h (by decide)
      · exact newline_not_mem_dumpsFields (f :: rest) h

end

theorem newline_not_mem_dumps (j : Json) : '\n' ∉ (dumps j).data :=
  newline_not_mem_dumpsChars j

/-- C4: `stop()` never fails: the model is a total function with no error
outcome, it is a no-op when `start()` was never successfully completed
(`self.process` is still `None`, so the `if self.process:` guard skips the
body), it does not raise when invoked on an already-exited child process
(`terminate` does nothing on a completed child), and in particular calling
`stop()` twice in a row does not fail and leaves the state of the first
`stop()` unchanged. -/
theorem stop_server_never_fails (c : MCPClient) :
    MCPClient.stop_server { c with process := none } = { c with process := none } ∧
    MCPClient.stop_server (MCPClient.stop_server c) = MCPClient.stop_server c := by
  obtain ⟨proc, rid, env⟩ := c
  refine ⟨rfl, ?_⟩
  cases proc with
  | none => rfl
  | some p => cases p; rfl

/-- C5: if the output stream has closed (the collaborator exited) before a
full response line is available, `readline` returns empty bytes and the
pending call fails with the decode error of `json.loads` on the empty line
(the spec's `ProtocolDecodeError`), rather than blocking or returning a
value. -/
theorem send_request_closed_stream (ws : List String) (n : Nat) (es : List Json)
    (method : String) (params : Json) :
    (MCPClient.send_request
        ⟨some ⟨ProcStatus.running, ws, []⟩, n, es⟩ method params).1
      = Except.error PyError.jsonDecodeError := rfl

/-- C9: the client never compares the id of the decoded response against
the id it just sent: whatever JSON object `r` arrives as the response line
(its `id` field may differ from the request id or be absent entirely),
`send_request` returns `r` unchanged, and no protocol-violation error
exists on this path (`PyError` has no such constructor). -/
theorem send_request_no_id_check (ws : List String) (n : Nat) (es : List Json)
    (method : String) (params : Json) (r : Json) (rest : List Json) :
    (MCPClient.send_request
        ⟨some ⟨ProcStatus.running, ws, r :: rest⟩, n, es⟩ method params).1
      = Except.ok r := rfl

/-- C6: an operation attempted while no child process has been started
raises `RuntimeError("Server not started")` and performs no write (the
client state is returned untouched); after `stop()` the child has been
terminated and the write to its closed stdin pipe fails at `drain()`, so
the operation fails there as well. -/
theorem send_request_invalid_state (c : MCPClient) (method : String) (params : Json) :
    (c.process = none →
      MCPClient.send_request c method params
        = (Except.error (PyError.runtimeError "Server not started"), c)) ∧
    (∀ p, c.process = some p → p.status = ProcStatus.exited →
      (MCPClient.send_request c method params).1
        = Except.error PyError.connectionResetError) := by
  constructor
  · intro h
    simp [MCPClient.send_request, h]
  · intro p hp hst
    simp [MCPClient.send_request, hp, hst]

/-- Witness for C6: the freshly constructed client fails with the
`RuntimeError`, and a started-then-stopped client fails at the closed
pipe. -/
theorem send_request_invalid_state_witness :
    (MCPClient.send_request MCPClient.new "tools/call" (Json.obj [])).1
      = Except.error (PyError.runtimeError "Server not started") ∧
    (MCPClient.send_request
        (MCPClient.stop_server (MCPClient.new.start_server [])) "tools/call" (Json.obj [])).1
      = Except.error PyError.connectionResetError := by
  constructor
  · exact congrArg Prod.fst
      ((send_request_invalid_state MCPClient.new "tools/call" (Json.obj [])).1 rfl)
  · exact (send_request_invalid_state
      (MCPClient.stop_server (MCPClient.new.start_server [])) "tools/call" (Json.obj [])).2
      ⟨ProcStatus.exited, [], []⟩ rfl rfl

/-- C7: for every successful tool call whose response result is shaped as
a `content` sequence whose first item carries a `text` string, `call_tool`
returns that text field (the item at index 0). -/
theorem call_tool_extracts_text (ws : List String) (n : Nat) (es : List Json)
    (tool : String) (args : Json) (fields rfields ffields : List (String × Json))
    (rest others : List Json) (s : String)
    (hne : lookupField fields "error" = none)
    (hr : lookupField fields "result" = some (Json.obj rfields))
    (hc : lookupField rfields "content" = some (Json.arr (Json.obj ffields :: others)))
    (ht : lookupField ffields "text" = some (Json.str s)) :
    (MCPClient.call_tool
        ⟨some ⟨ProcStatus.running, ws, Json.obj fields :: rest⟩, n, es⟩ tool args).1
      = Except.ok (Json.str s) := by
  simp [MCPClient.call_tool, MCPClient.send_request, pyIn, pyGet, pyGetNone, pyIndex,
    hne, hr, hc, ht, Bind.bind, Except.bind, Pure.pure, Except.pure]

/-- Witness for C7: the spec scenario — a call for a random integer in
`[1,100]` receiving `{"result":{"content":[{"text":"57"}]}}` yields the
extracted value `"57"`. -/
theorem call_tool_extracts_text_witness :
    (MCPClient.call_tool
        (MCPClient.new.start_server
          [Json.obj [("result",
              Json.obj [("content", Json.arr [Json.obj [("text", Json.str "57")]])])]])
        "random_int" (Json.obj [("low", Json.num 1), ("high", Json.num 100)])).1
      = Except.ok (Json.str "57") :=
  call_tool_extracts_text [] 0 [] "random_int"
    (Json.obj [("low", Json.num 1), ("high", Json.num 100)])
    [("result", Json.obj [("content", Json.arr [Json.obj [("text", Json.str "57")]])])]
    [("content", Json.arr [Json.obj [("text", Json.str "57")]])]
    [("text", Json.str "57")] [] [] "57" rfl rfl rfl rfl

/-- C2: for every decoded response that carries an `error` mapping,
`call_tool` fails with the tool-error exception carrying the error payload
(the spec's `ToolError`), and the failure is fatal to that call only: the
resulting client state has the id counter advanced exactly as for any
other call and the remaining output stream intact, and (second conjunct)
the post-call state does not depend on the content of the response at all,
so the id sequence and the behaviour of subsequent calls are unaffected. -/
theorem call_tool_error_response (ws : List String) (n : Nat) (es : List Json)
    (tool : String) (args : Json) (fields : List (String × Json)) (rest : List Json)
    (e : Json) (he : lookupField fields "error" = some e) :
    MCPClient.call_tool
        ⟨some ⟨ProcStatus.running, ws, Json.obj fields :: rest⟩, n, es⟩ tool args
      = (Except.error (PyError.toolError e),
         ⟨some ⟨ProcStatus.running,
            ws ++ [dumps (requestEnvelope (n + 1) "tools/call" (toolCallParams tool args)) ++ "\n"],
            rest⟩,
          n + 1,
          es ++ [requestEnvelope (n + 1) "tools/call" (toolCallParams tool args)]⟩) ∧
    ∀ r' : Json,
      (MCPClient.call_tool ⟨some ⟨ProcStatus.running, ws, r' :: rest⟩, n, es⟩ tool args).2
        = (MCPClient.call_tool
            ⟨some ⟨ProcStatus.running, ws, Json.obj fields :: rest⟩, n, es⟩ tool args).2 := by
  constructor
  · simp [MCPClient.call_tool, MCPClient.send_request, pyIn, pyGetItem, he,
      Bind.bind, Except.bind, Pure.pure, Except.pure, throw, throwThe, MonadExceptOf.throw]
  · intro r'
    rfl

/-- Witness for C2: the spec scenario — a `random_choices` call on an
empty population answered by an error envelope raises the tool error with
that payload. -/
theorem call_tool_error_response_witness :
    (MCPClient.call_tool
        (MCPClient.new.start_server
          [Json.obj [("jsonrpc", Json.str "2.0"), ("id", Json.num 1),
            ("error", Json.obj [("message", Json.str "population must be non-empty")])]])
        "random_choices" (Json.obj [("population", Json.arr [])])).1
      = Except.error (PyError.toolError
          (Json.obj [("message", Json.str "population must be non-empty")])) :=
  congrArg Prod.fst
    ((call_tool_error_response [] 0 [] "random_choices"
      (Json.obj [("population", Json.arr [])])
      [("jsonrpc", Json.str "2.0"), ("id", Json.num 1),
       ("error", Json.obj [("message", Json.str "population must be non-empty")])]
      [] (Json.obj [("message", Json.str "population must be non-empty")]) rfl).1)

/-- C10: if the decoded non-error response carries a `result` mapping
whose `content` field is present but an empty sequence, the extraction
indexes position 0 of that empty sequence and fails with the unguarded
`IndexError`, not with any of the spec's named error kinds (which are the
other constructors of `PyError`). -/
theorem call_tool_empty_content (ws : List String) (n : Nat) (es : List Json)
    (tool : String) (args : Json) (fields rfields : List (String × Json)) (rest : List Json)
    (hne : lookupField fields "error" = none)
    (hr : lookupField fields "result" = some (Json.obj rfields))
    (hc : lookupField rfields "content" = some (Json.arr [])) :
    (MCPClient.call_tool
        ⟨some ⟨ProcStatus.running, ws, Json.obj fields :: rest⟩, n, es⟩ tool args).1
      = Except.error PyError.indexError := by
  simp [MCPClient.call_tool, MCPClient.send_request, pyIn, pyGet, pyGetNone, pyIndex,
    hne, hr, hc, Bind.bind, Except.bind, Pure.pure, Except.pure]

/-- Witness for C10: a concrete response with an empty `content` list
makes `call_tool` fail with `IndexError`. -/
theorem call_tool_empty_content_witness :
    (MCPClient.call_tool
        (MCPClient.new.start_server
          [Json.obj [("result", Json.obj [("content", Json.arr [])])]])
        "random_int" (Json.obj [("low", Json.num 1), ("high", Json.num 100)])).1
      = Except.error PyError.indexError :=
  call_tool_empty_content [] 0 [] "random_int"
    (Json.obj [("low", Json.num 1), ("high", Json.num 100)])
    [("result", Json.obj [("content", Json.arr [])])]
    [("content", Json.arr [])] [] rfl rfl rfl

/-- Counterexample to C3 as stated: for the decoded non-error response
`{}` — whose result mapping is missing entirely — the tool-call operation
does not fail at all (with `MalformedResultError` or anything else); it
returns successfully. -/
theorem call_tool_missing_result_is_not_failure :
    ¬ ∃ e, (MCPClient.call_tool (MCPClient.new.start_server [Json.obj []])
        "random_int" (Json.obj [("low", Json.num 1), ("high", Json.num 100)])).1
      = Except.error e := by
  rintro ⟨e, h⟩
  exact Except.noConfusion h

/-- C3 (amended): for every decoded non-error response whose result
mapping does not have the expected shape — missing `result`, missing
`content` sequence, or missing `text` field of the first item — the
tool-call operation does not fail: the chained defaulted `.get` accessors
swallow the missing field and the operation returns Python `None`
(`Json.null`). -/
theorem call_tool_missing_shape_returns_null (ws : List String) (n : Nat) (es : List Json)
    (tool : String) (args : Json) (fields : List (String × Json)) (rest : List Json)
    (hne : lookupField fields "error" = none)
    (hshape :
      lookupField fields "result" = none ∨
      (∃ rfields, lookupField fields "result" = some (Json.obj rfields) ∧
        lookupField rfields "content" = none) ∨
      (∃ rfields ffields others,
        lookupField fields "result" = some (Json.obj rfields) ∧
        lookupField rfields "content" = some (Json.arr (Json.obj ffields :: others)) ∧
        lookupField ffields "text" = none)) :
    (MCPClient.call_tool
        ⟨some ⟨ProcStatus.running, ws, Json.obj fields :: rest⟩, n, es⟩ tool args).1
      = Except.ok Json.null := by
  rcases hshape with hr | ⟨rfields, hr, hc⟩ | ⟨rfields, ffields, others, hr, hc, ht⟩
  · simp [MCPClient.call_tool, MCPClient.send_request, pyIn, pyGet, pyGetNone, pyIndex,
      hne, hr, lookupField, Bind.bind, Except.bind, Pure.pure, Except.pure]
  · simp [MCPClient.call_tool, MCPClient.send_request, pyIn, pyGet, pyGetNone, pyIndex,
      hne, hr, hc, lookupField, Bind.bind, Except.bind, Pure.pure, Except.pure]
  · simp [MCPClient.call_tool, MCPClient.send_request, pyIn, pyGet, pyGetNone, pyIndex,
      hne, hr, hc, ht, Bind.bind, Except.bind, Pure.pure, Except.pure]

/-- Witness for the amended C3: the response `{}` (result missing) makes
`call_tool` return `Json.null`. -/
theorem call_tool_missing_shape_returns_null_witness :
    (MCPClient.call_tool (MCPClient.new.start_server [Json.obj []])
        "random_int" (Json.obj [("low", Json.num 1), ("high", Json.num 100)])).1
      = Except.ok Json.null :=
  call_tool_missing_shape_returns_null [] 0 [] "random_int"
    (Json.obj [("low", Json.num 1), ("high", Json.num 100)])
    [] [] rfl (Or.inl rfl)

theorem envId_requestEnvelope (rid : Nat) (method : String) (params : Json) :
    envId (requestEnvelope rid method params) = Int.ofNat rid := rfl

theorem send_request_state (st : ProcStatus) (ws : List String) (out : List Json)
    (n : Nat) (es : List Json) (method : String) (params : Json) :
    (MCPClient.send_request ⟨some ⟨st, ws, out⟩, n, es⟩ method params).2.request_id = n + 1 ∧
    (MCPClient.send_request ⟨some ⟨st, ws, out⟩, n, es⟩ method params).2.sentEnvelopes
      = es ++ [requestEnvelope (n + 1) method params] ∧
    ∃ q, (MCPClient.send_request ⟨some ⟨st, ws, out⟩, n, es⟩ method params).2.process = some q := by
  cases st <;> cases out <;> simp [MCPClient.send_request]

theorem runCalls_idsOf (calls : List (String × Json)) :
    ∀ (c : MCPClient) (p : Process), c.process = some p →
      idsOf (MCPClient.runCalls c calls).2
        = idsOf c ++ (List.range' (c.request_id + 1) calls.length).map Int.ofNat ∧
      ∃ q, (MCPClient.runCalls c calls).2.process = some q := by
  induction calls with
  | nil =>
      intro c p hp
      exact ⟨by simp [MCPClient.runCalls, idsOf], p, hp⟩
  | cons mp rest ih =>
      intro c p hp
      obtain ⟨m, ps⟩ := mp
      obtain ⟨proc, n, es⟩ := c
      have hp' : proc = some p := hp
      subst hp'
      obtain ⟨st, ws, out⟩ := p
      obtain ⟨hrid, henv, q, hq⟩ := send_request_state st ws out n es m ps
      obtain ⟨hids, hproc⟩ := ih (MCPClient.send_request ⟨some ⟨st, ws, out⟩, n, es⟩ m ps).2 q hq
      constructor
      · show idsOf (MCPClient.runCalls
            (MCPClient.send_request ⟨some ⟨st, ws, out⟩, n, es⟩ m ps).2 rest).2 = _
        rw [hids, hrid]
        have hmap : idsOf (MCPClient.send_request ⟨some ⟨st, ws, out⟩, n, es⟩ m ps).2
            = es.map envId ++ [Int.ofNat (n + 1)] := by
          show ((MCPClient.send_request
            ⟨some ⟨st, ws, out⟩, n, es⟩ m ps).2.sentEnvelopes).map envId = _
          rw [henv, List.map_append]
          rfl
        rw [hmap]
        show es.map envId ++ [Int.ofNat (n + 1)] ++ _
          = es.map envId ++ (List.range' (n + 1) (rest.length + 1)).map Int.ofNat
        rw [List.range'_succ, List.map_cons, List.append_assoc]
        rfl
      · exact hproc

/-- C1: over the lifetime of a single channel instance, for every sequence
of calls, the request ids placed in the request envelopes by
`send_request` are exactly `1, 2, ..., k` (each call uses a freshly
incremented id), hence strictly increasing with no repeats. -/
theorem request_ids_strictly_increasing (serverOutput : List Json)
    (calls : List (String × Json)) :
    idsOf (MCPClient.runCalls (MCPClient.new.start_server serverOutput) calls).2
      = (List.range' 1 calls.length).map Int.ofNat ∧
    List.Pairwise (fun a b : Int => a < b)
      (idsOf (MCPClient.runCalls (MCPClient.new.start_server serverOutput) calls).2) := by
  obtain ⟨hids, -⟩ := runCalls_idsOf calls (MCPClient.new.start_server serverOutput)
      ⟨ProcStatus.running, [], serverOutput⟩ rfl
  rw [show idsOf (MCPClient.new.start_server serverOutput) = [] from rfl,
    List.nil_append] at hids
  refine ⟨hids, ?_⟩
  rw [hids]
  exact (List.pairwise_lt_range' 1 calls.length).map Int.ofNat
    (fun a b h => Int.ofNat_lt.mpr h)

/-- C8: for every method and parameter mapping, `send_request` writes
exactly one new line to the child's stdin; the line is the serialization
of the request envelope — which consists of exactly the fields `jsonrpc`
(the literal `"2.0"`), the freshly incremented integer id `n + 1`, the
method string and the params object, in that order — terminated by a
newline, and the serialized envelope itself contains no raw newline, so
the write is a single newline-terminated JSON line. -/
theorem send_request_single_line (st : ProcStatus) (ws : List String) (out : List Json)
    (n : Nat) (es : List Json) (method : String) (params : Json) :
    requestEnvelope (n + 1) method params
      = Json.obj [("jsonrpc", Json.str "2.0"), ("id", Json.num (n + 1)),
                  ("method", Json.str method), ("params", params)] ∧
    ∃ q : Process,
      (MCPClient.send_request ⟨some ⟨st, ws, out⟩, n, es⟩ method params).2.process = some q ∧
      q.stdin = ws ++ [dumps (requestEnvelope (n + 1) method params) ++ "\n"] ∧
      (MCPClient.send_request ⟨some ⟨st, ws, out⟩, n, es⟩ method params).2.sentEnvelopes
        = es ++ [requestEnvelope (n + 1) method params] ∧
      (dumps (requestEnvelope (n + 1) method params) ++ "\n").data
        = (dumps (requestEnvelope (n + 1) method params)).data ++ ['\n'] ∧
      '\n' ∉ (dumps (requestEnvelope (n + 1) method params)).data := by
  refine ⟨rfl, ?_⟩
  cases st <;> cases out <;>
    exact ⟨_, rfl, rfl, rfl, String.data_append _ _, newline_not_mem_dumps _⟩

end DemoHost
